import Mathlib

/-!
Verification of the Healthcare-AI patient-care backend.

This file gives a shallow embedding, in Lean 4, of the parts of the
repository that the verified properties talk about:

* `backend/agents/triage_agent.py`     — urgency scoring (`assess_urgency`);
* `backend/agents/escalation_agent.py` — escalation decisioning
  (`check_escalation_needed`);
* `backend/agents/intake_agent.py` and `backend/agents/base_agent.py`
  — keyword symptom extraction and urgency-indicator detection;
* `backend/database/sqlite_manager.py` — the transactional store
  (`store_conversation`, `verify_session`, `cleanup_expired_sessions`,
  `log_audit_event`), modelled as explicit state passing with an
  injected failure point standing for a raised exception;
* `backend/app.py` — the `process_patient_message` orchestration.

Python strings are Lean `String`s, Python `in` on strings is the
substring test `strHasSub`, Python integer arithmetic is `Int`, and the
SQLite tables are Lean lists of row structures.  External collaborators
(the text-generation model and the vector search) are out of scope and
enter only as opaque parameters.
-/

/-! ## String helpers: Python `str.lower()` and the `in` substring test -/

/-- `charsBeginWith n h` holds when the char list `n` starts the list `h`. -/
def charsBeginWith : List Char → List Char → Bool
  | [], _ => true
  | _ :: _, [] => false
  | a :: as, b :: bs => a == b && charsBeginWith as bs

/-- `charsHaveSub n h` holds when `n` occurs contiguously inside `h`. -/
def charsHaveSub (needle : List Char) : List Char → Bool
  | [] => charsBeginWith needle []
  | b :: bs => charsBeginWith needle (b :: bs) || charsHaveSub needle bs

/-- Python `needle in haystack` on strings: contiguous substring test. -/
def strHasSub (haystack needle : String) : Bool :=
  charsHaveSub needle.toList haystack.toList

/-- Python `str.lower()` (the source only ever lowercases ASCII text). -/
def lowerStr (s : String) : String :=
  String.mk (s.toList.map Char.toLower)

/-! ## Data model

A symptom observation, as built by `IntakeAgent._extract_symptoms`:
a dict with keys `name` and `mentioned_text` (the constant float
confidence `0.7` is attached by the source but never read by any
operation modelled here, so it is not represented).  The patient
context dict built by `IntakeAgent.process_message` carries the keys
read downstream: `age` (absent in the built dict, but read with
`.get('age')` by the triage and escalation agents), `medical_history`
(an arbitrary object; the agents only ever use `str(...)` of it, so it
is modelled by that string), `urgency_indicators` and `symptoms`. -/

structure Symptom where
  name : String
  mentionedText : String
  deriving Repr, DecidableEq

/-- Result of `BaseAgent._assess_urgency_indicators`. -/
structure UrgencyIndicators where
  urgencyLevel : String
  highCount : Nat
  mediumCount : Nat
  keywordsFound : List String
  deriving Repr, DecidableEq

structure PatientContext where
  age : Option Int
  medicalHistoryText : String
  urgencyIndicators : Option UrgencyIndicators
  symptoms : List Symptom
  deriving Repr, DecidableEq

/-- `patient_context.get('urgency_indicators', {}).get('urgency_level')`:
`none` models both a missing `urgency_indicators` dict and a missing key. -/
def ctxUrgencyLevel (ctx : PatientContext) : Option String :=
  ctx.urgencyIndicators.map (fun u => u.urgencyLevel)

/-- `patient_context.get('urgency_indicators', {}).get('high_urgency_indicators', 0)`. -/
def ctxHighUrgencyCount (ctx : PatientContext) : Nat :=
  (ctx.urgencyIndicators.map (fun u => u.highCount)).getD 0

/-! ## Triage agent (`backend/agents/triage_agent.py`) -/

/-- `high_urgency_symptoms` in `TriageAgent._calculate_base_urgency`. -/
def highUrgencySymptoms : List String :=
  ["chest pain", "shortness of breath", "severe pain", "bleeding"]

/-- `medium_urgency_symptoms` in `TriageAgent._calculate_base_urgency`. -/
def mediumUrgencySymptoms : List String :=
  ["fever", "nausea", "headache", "dizzy"]

/-- One iteration of the symptom loop in `_calculate_base_urgency`:
`+3` when the lowercased name contains a high-urgency keyword, else `+1`
when it contains a medium-urgency keyword, else `+0`. -/
def symptomScoreDelta (s : Symptom) : Int :=
  let n := lowerStr s.name
  if highUrgencySymptoms.any (fun u => strHasSub n u) then 3
  else if mediumUrgencySymptoms.any (fun m => strHasSub n m) then 1
  else 0

/-- `TriageAgent._calculate_base_urgency`: `2` for no symptoms, else the
default `3` plus the per-symptom increments. -/
def calculateBaseUrgency (symptoms : List Symptom) : Int :=
  if symptoms.isEmpty then 2
  else symptoms.foldl (fun acc s => acc + symptomScoreDelta s) 3

/-- `high_risk_conditions` in `TriageAgent._apply_context_modifiers`. -/
def triageHighRiskConditions : List String :=
  ["diabetes", "heart disease", "hypertension"]

/-- The age branch of `_apply_context_modifiers`.  Python's `if age:`
is false for a missing key and for `age == 0`, so an explicit age of
`0` receives no modifier. -/
def ageModifier (age : Option Int) : Int :=
  match age with
  | none => 0
  | some a =>
      if a = 0 then 0
      else if a > 65 then 1
      else if a < 2 then 2
      else 0

/-- The medical-history loop of `_apply_context_modifiers`: `+1` for each
of the three listed conditions found in `str(medical_history).lower()`. -/
def historyModifier (historyText : String) : Int :=
  triageHighRiskConditions.foldl
    (fun acc c => if strHasSub (lowerStr historyText) c then acc + 1 else acc) 0

/-- The urgency-indicator branch of `_apply_context_modifiers`. -/
def urgencySignalModifier (ctx : PatientContext) : Int :=
  if ctxUrgencyLevel ctx = some "high" then 2 else 0

/-- `TriageAgent._apply_context_modifiers`. -/
def applyContextModifiers (baseScore : Int) (ctx : PatientContext) : Int :=
  baseScore + ageModifier ctx.age + historyModifier ctx.medicalHistoryText
    + urgencySignalModifier ctx

/-- `TriageAgent._get_urgency_level`. -/
def getUrgencyLevel (score : Int) : String :=
  if score ≥ 8 then "critical"
  else if score ≥ 6 then "high"
  else if score ≥ 4 then "moderate"
  else if score ≥ 2 then "low"
  else "minimal"

/-- `TriageAgent._get_recommended_action` (the dict lookup; the
`symptoms` argument is unused by the source as well). -/
def getRecommendedAction (score : Int) : String :=
  let level := getUrgencyLevel score
  if level = "critical" then "Call 911 immediately or go to emergency room"
  else if level = "high" then "Seek immediate medical attention within 2 hours"
  else if level = "moderate" then "Contact healthcare provider within 24 hours"
  else if level = "low" then "Schedule appointment within 1-2 weeks"
  else "Monitor symptoms and consider self-care measures"

/-- `TriageAgent._generate_reasoning`. -/
def generateReasoning (symptoms : List Symptom) (ctx : PatientContext)
    (score : Int) : String :=
  let parts : List String :=
    (if symptoms.isEmpty then []
     else ["Based on reported symptoms: "
             ++ String.intercalate ", " ((symptoms.map (fun s => s.name)).take 3)])
    ++ (if score ≥ 6 then ["Elevated concern due to symptom severity"] else [])
    ++ (if ctxHighUrgencyCount ctx > 0 then
          ["High-urgency language detected in patient description"] else [])
    ++ (if ctx.age.getD 0 > 65 then ["Age factor increases risk level"] else [])
  let parts :=
    if parts.isEmpty then ["Standard assessment based on presented information"]
    else parts
  String.intercalate ". " parts ++ "."

structure UrgencyAssessment where
  urgencyScore : Int
  urgencyLevel : String
  recommendedAction : String
  reasoning : String
  deriving Repr, DecidableEq

/-- The normal (`try`) path of `TriageAgent.assess_urgency`: the score is
clamped to `[1,10]` by `min(10, max(1, modified_score))`; the level and
action are computed from the unclamped modified score, as in the source. -/
def assessUrgencyOk (symptoms : List Symptom) (ctx : PatientContext) :
    UrgencyAssessment :=
  let modifiedScore := applyContextModifiers (calculateBaseUrgency symptoms) ctx
  { urgencyScore := min 10 (max 1 modifiedScore)
    urgencyLevel := getUrgencyLevel modifiedScore
    recommendedAction := getRecommendedAction modifiedScore
    reasoning := generateReasoning symptoms ctx modifiedScore }

/-- The `except` path of `TriageAgent.assess_urgency`. -/
def triageErrorFallback : UrgencyAssessment :=
  { urgencyScore := 5
    urgencyLevel := "moderate"
    recommendedAction := "Contact healthcare provider within 24 hours"
    reasoning := "Assessment system error - defaulting to moderate urgency" }

/-- `TriageAgent.assess_urgency`, with `internalError` standing for an
exception raised inside the `try` block. -/
def assessUrgency (internalError : Bool) (symptoms : List Symptom)
    (ctx : PatientContext) : UrgencyAssessment :=
  if internalError then triageErrorFallback
  else assessUrgencyOk symptoms ctx

/-! ## Escalation agent (`backend/agents/escalation_agent.py`) -/

/-- Result of `EscalationAgent._check_urgency_escalation`. -/
structure UrgencyCheck where
  required : Bool
  reason : String
  priority : String
  deriving Repr, DecidableEq

def checkUrgencyEscalation (urgencyScore : Int) : UrgencyCheck :=
  if urgencyScore ≥ 8 then
    { required := true
      reason := "Critical urgency score: " ++ toString urgencyScore ++ "/10"
      priority := "immediate" }
  else if urgencyScore ≥ 6 then
    { required := true
      reason := "High urgency score: " ++ toString urgencyScore ++ "/10"
      priority := "urgent" }
  else
    { required := false
      reason := "Moderate urgency score: " ++ toString urgencyScore ++ "/10"
      priority := "routine" }

/-- `high_priority_symptoms` in `EscalationAgent._check_symptom_escalation`. -/
def highPrioritySymptoms : List String :=
  ["chest pain", "shortness of breath", "severe pain",
   "difficulty breathing", "stroke symptoms", "heart attack"]

/-- Result of `EscalationAgent._check_symptom_escalation`; `symptoms`
holds the lowercased names that matched. -/
structure SymptomCheck where
  required : Bool
  reason : String
  symptoms : List String
  deriving Repr, DecidableEq

def checkSymptomEscalation (symptoms : List Symptom) : SymptomCheck :=
  let escalationSymptoms :=
    (symptoms.map (fun s => lowerStr s.name)).filter
      (fun n => highPrioritySymptoms.any (fun p => strHasSub n p))
  if escalationSymptoms.isEmpty then
    { required := false
      reason := "No high-priority symptoms detected"
      symptoms := [] }
  else
    { required := true
      reason := "High-priority symptoms detected: "
                  ++ String.intercalate ", " escalationSymptoms
      symptoms := escalationSymptoms }

/-- `high_risk_conditions` in `EscalationAgent._check_context_escalation`
(note: a different list from the triage agent's). -/
def escalationHighRiskConditions : List String :=
  ["heart disease", "diabetes", "cancer", "immunocompromised"]

/-- Result of `EscalationAgent._check_context_escalation`. -/
structure ContextCheck where
  required : Bool
  reason : String
  factors : List String
  deriving Repr, DecidableEq

def contextEscalationFactors (ctx : PatientContext) : List String :=
  (match ctx.age with
   | none => []
   | some a =>
       if a ≠ 0 ∧ (a < 2 ∨ a > 75) then
         ["Age factor: " ++ toString a ++ " years"]
       else [])
  ++ escalationHighRiskConditions.foldl
       (fun acc c =>
         if strHasSub (lowerStr ctx.medicalHistoryText) c then
           acc ++ ["High-risk condition: " ++ c]
         else acc) []
  ++ (if ctx.symptoms.length ≥ 5 then
        ["Multiple symptoms: " ++ toString ctx.symptoms.length]
      else [])

def checkContextEscalation (ctx : PatientContext) : ContextCheck :=
  let factors := contextEscalationFactors ctx
  if factors.isEmpty then
    { required := false
      reason := "No high-risk context factors"
      factors := [] }
  else
    { required := true
      reason := "Context factors: " ++ String.intercalate "; " factors
      factors := factors }

/-- `EscalationAgent._determine_escalation_level`.  The source's chest-pain
test is `'chest pain' in str(symptoms).lower()` where `symptoms` is the
symptom-check dict: the literal `"chest pain"` occurs in that dict's
string form exactly when one of the matched (already lowercased) symptom
names contains it — the dict's fixed key/reason text contains no such
phrase and the `', '` separators cannot assemble one across entries. -/
def determineEscalationLevel (u : UrgencyCheck) (s : SymptomCheck)
    (c : ContextCheck) : String :=
  if u.priority = "immediate"
      ∨ s.symptoms.any (fun n => strHasSub n "chest pain") then "emergency"
  else if u.priority = "urgent" ∨ s.required then "urgent"
  else if c.required then "priority"
  else "routine"

/-- `EscalationAgent._get_escalation_instructions` (the `symptoms`
argument is unused by the source as well). -/
def getEscalationInstructions (level : String) : List String :=
  if level = "emergency" then
    ["Call 911 immediately",
     "Do not drive yourself to the hospital",
     "Stay on the line with emergency dispatcher",
     "Have someone stay with you if possible"]
  else if level = "urgent" then
    ["Go to the nearest emergency department",
     "Call ahead if possible to notify them",
     "Bring your medication list and ID",
     "Have someone drive you or call an ambulance"]
  else if level = "priority" then
    ["Contact your primary care provider today",
     "If unavailable, consider urgent care",
     "Monitor symptoms closely",
     "Seek immediate care if symptoms worsen"]
  else
    ["Schedule appointment with healthcare provider",
     "Continue current care if any",
     "Call if symptoms worsen",
     "Follow up within recommended timeframe"]

/-- `EscalationAgent._estimate_wait_time`. -/
def estimateWaitTime (level : String) : String :=
  if level = "emergency" then "Immediate"
  else if level = "urgent" then "30-60 minutes"
  else if level = "priority" then "2-4 hours"
  else if level = "routine" then "1-3 days"
  else "Unknown"

/-- `EscalationAgent._determine_provider_type`. -/
def determineProviderType (level : String) (symptoms : List Symptom) : String :=
  let symptomNames := lowerStr (String.intercalate " " (symptoms.map (fun s => s.name)))
  if level = "emergency" ∨ level = "urgent" then
    if strHasSub symptomNames "chest pain" ∨ strHasSub symptomNames "heart" then
      "Emergency Department (Cardiology)"
    else if strHasSub symptomNames "breathing" ∨ strHasSub symptomNames "breath" then
      "Emergency Department (Pulmonology)"
    else "Emergency Department"
  else if level = "priority" then "Urgent Care or Primary Care"
  else "Primary Care Provider"

/-- The instructions value is a list of strings on the normal path but a
single error string on the `except` path, matching the Python dict. -/
inductive EscInstructions
  | items (list : List String)
  | text (msg : String)
  deriving Repr, DecidableEq

structure EscalationResult where
  required : Bool
  level : String
  reasons : Option (UrgencyCheck × SymptomCheck × ContextCheck)
  instructions : EscInstructions
  estimatedWaitTime : String
  providerType : Option String
  deriving Repr, DecidableEq

/-- `EscalationAgent.check_escalation_needed`, with `internalError`
standing for an exception raised inside the `try` block (the `except`
path returns `required=True`, `level='urgent'` and no provider type). -/
def checkEscalationNeeded (internalError : Bool) (urgencyScore : Int)
    (symptoms : List Symptom) (ctx : PatientContext) : EscalationResult :=
  if internalError then
    { required := true
      level := "urgent"
      reasons := none
      instructions := .text "System error - please contact healthcare provider"
      estimatedWaitTime := "unknown"
      providerType := none }
  else
    let u := checkUrgencyEscalation urgencyScore
    let s := checkSymptomEscalation symptoms
    let c := checkContextEscalation ctx
    let level := determineEscalationLevel u s c
    { required := u.required || s.required || c.required
      level := level
      reasons := some (u, s, c)
      instructions := .items (getEscalationInstructions level)
      estimatedWaitTime := estimateWaitTime level
      providerType := some (determineProviderType level symptoms) }

/-! ## Intake agent (`backend/agents/intake_agent.py`) and
`BaseAgent._assess_urgency_indicators` (`backend/agents/base_agent.py`) -/

/-- `symptom_keywords` in `IntakeAgent._extract_symptoms`. -/
def symptomKeywords : List String :=
  ["pain", "hurt", "ache", "fever", "nausea", "vomit", "dizzy",
   "tired", "cough", "cold", "headache", "chest pain", "shortness of breath",
   "rash", "swelling", "bleeding", "trouble breathing"]

/-- `IntakeAgent._extract_symptoms`: one observation per lexicon keyword
found (case-insensitively) in the message, in lexicon order. -/
def extractSymptoms (message : String) : List Symptom :=
  (symptomKeywords.filter (fun kw => strHasSub (lowerStr message) kw)).map
    (fun kw => { name := kw, mentionedText := message })

/-- `high_urgency_keywords` in `BaseAgent._assess_urgency_indicators`. -/
def highUrgencyKeywords : List String :=
  ["severe", "intense", "excruciating", "unbearable",
   "can\x27t breathe", "chest pain", "crushing", "radiating",
   "sudden", "worst ever", "emergency", "911", "help"]

/-- `medium_urgency_keywords` in `BaseAgent._assess_urgency_indicators`. -/
def mediumUrgencyKeywords : List String :=
  ["moderate", "concerning", "worsening", "spreading",
   "nausea", "vomiting", "fever", "difficulty"]

/-- `BaseAgent._assess_urgency_indicators`. -/
def assessUrgencyIndicators (text : String) : UrgencyIndicators :=
  let textLower := lowerStr text
  let highCount := (highUrgencyKeywords.filter (fun kw => strHasSub textLower kw)).length
  let mediumCount := (mediumUrgencyKeywords.filter (fun kw => strHasSub textLower kw)).length
  { urgencyLevel :=
      if highCount > 0 then "high"
      else if mediumCount > 0 then "medium"
      else "low"
    highCount := highCount
    mediumCount := mediumCount
    keywordsFound :=
      (highUrgencyKeywords ++ mediumUrgencyKeywords).filter
        (fun kw => strHasSub textLower kw) }

/-- `IntakeAgent._generate_follow_up_questions`. -/
def generateFollowUpQuestions (symptoms : List Symptom) : List String :=
  if symptoms.isEmpty then
    ["Can you describe what symptoms you\x27re experiencing?"]
  else
    (symptoms.foldl
      (fun acc s =>
        if strHasSub s.name "pain" then
          acc ++ ["Can you describe the type of pain - sharp, dull, throbbing?"]
        else if strHasSub s.name "fever" then
          acc ++ ["Have you taken your temperature? If so, what was it?"]
        else acc)
      ["On a scale of 1-10, how would you rate your discomfort?",
       "How long have you been experiencing these symptoms?",
       "Have you taken any medications for this?"]).take 3

/-- The fields of `IntakeAgent.process_message`'s normal-path result that
the orchestrator reads.  The caring-response text and the conversation id
come from external collaborators (the generation model and a UUID) and
are passed in as parameters. -/
structure IntakeResponse where
  responseText : String
  extractedSymptoms : List Symptom
  patientContext : PatientContext
  followUpQuestions : List String
  urgencyLevel : String
  conversationId : String
  deriving Repr, DecidableEq

/-- The normal path of `IntakeAgent.process_message`.  The patient
context it builds has no `age` key, carries the request's
`medical_history` (modelled by its string form `requestHistoryText`)
and the freshly computed symptoms and urgency indicators. -/
def intakeProcessMessage (aiText conversationId message requestHistoryText : String) :
    IntakeResponse :=
  let symptoms := extractSymptoms message
  let indicators := assessUrgencyIndicators message
  { responseText := aiText
    extractedSymptoms := symptoms
    patientContext :=
      { age := none
        medicalHistoryText := requestHistoryText
        urgencyIndicators := some indicators
        symptoms := symptoms }
    followUpQuestions := generateFollowUpQuestions symptoms
    urgencyLevel := indicators.urgencyLevel
    conversationId := conversationId }

/-! ## Persistence layer (`backend/database/sqlite_manager.py`)

Each SQLite table is a list of row structures; `CURRENT_TIMESTAMP` is an
abstract `Nat` number of seconds supplied at each call.  A raised Python
exception is modelled by an explicitly injected failure point.  Fernet
encryption of the sensitive columns is a bijective encoding of the
stored payload and is not itself modelled (no verified property concerns
the ciphertext), so rows carry the logical payload. -/

/-- The escalation decision as it appears inside the stored response
dict: `store_conversation` reads `ai_response['escalation']['required']`. -/
structure MergedResponse where
  agentResponse : String
  urgencyScore : Int
  urgencyLevel : String
  urgencyReasoning : String
  urgencyRecommendedAction : String
  knowledgeConditions : List String
  knowledgeTreatments : List String
  knowledgeWarningSigns : List String
  escalation : EscalationResult
  nextQuestions : List String
  conversationId : String
  deriving Repr, DecidableEq

structure ConversationRow where
  conversationId : String
  patientId : String
  userMessage : String
  aiResponse : MergedResponse
  urgencyScore : Int
  escalationTriggered : Bool
  sessionId : Option String
  deriving Repr, DecidableEq

/-- A `triage_history` row.  `symptomsJson` models
`json.dumps(ai_response.get('urgency_assessment', {}).get('symptoms', []))`;
the response dict built by `app.py` has no `symptoms` key under
`urgency_assessment`, so this is always the empty JSON list. -/
structure TriageRow where
  patientId : String
  conversationId : String
  symptomsJson : String
  urgencyScore : Int
  urgencyLevel : String
  reasoning : String
  recommendedAction : String
  escalationTriggered : Bool
  deriving Repr, DecidableEq

structure AuditRow where
  patientId : Option String
  action : String
  details : String
  success : Bool
  deriving Repr, DecidableEq

structure SessionRow where
  sessionId : String
  patientId : String
  sessionToken : String
  expiresAt : Nat
  active : Bool
  deriving Repr, DecidableEq

/-- The committed database: what any subsequent reader observes. -/
structure DBState where
  conversations : List ConversationRow
  triageHistory : List TriageRow
  auditLog : List AuditRow
  sessions : List SessionRow
  deriving Repr, DecidableEq

/-- An open SQLite transaction on the shared connection: the inserts of
`store_conversation` are pending until `conn.commit()`; `conn.rollback()`
discards them.  Readers see only `committed`. -/
structure SqliteTx where
  committed : DBState
  pendingConversations : List ConversationRow
  pendingTriage : List TriageRow
  deriving Repr, DecidableEq

def txBegin (db : DBState) : SqliteTx :=
  { committed := db, pendingConversations := [], pendingTriage := [] }

def txRollback (tx : SqliteTx) : DBState :=
  tx.committed

def txCommit (tx : SqliteTx) : DBState :=
  { tx.committed with
      conversations := tx.committed.conversations ++ tx.pendingConversations
      triageHistory := tx.committed.triageHistory ++ tx.pendingTriage }

/-- `PatientDataManager.verify_session`: the row must match patient and
token, still be flagged active, and satisfy
`expires_at > CURRENT_TIMESTAMP` — expiry is re-checked at read time. -/
def verifySession (db : DBState) (patientId sessionToken : String) (now : Nat) : Bool :=
  db.sessions.any (fun s =>
    decide (s.patientId = patientId) && decide (s.sessionToken = sessionToken)
      && s.active && decide (s.expiresAt > now))

/-- `PatientDataManager.cleanup_expired_sessions`:
`UPDATE sessions SET active = 0 WHERE expires_at < CURRENT_TIMESTAMP AND active = 1`. -/
def cleanupExpiredSessions (db : DBState) (now : Nat) : DBState :=
  { db with
      sessions := db.sessions.map (fun s =>
        if s.expiresAt < now ∧ s.active then { s with active := false } else s) }

/-- `PatientDataManager.log_audit_event`: appends one `audit_log` row in
its own transaction; its `try/except` swallows its own failure
(`auditFails`), so the caller never observes it. -/
def logAuditEvent (db : DBState) (auditFails : Bool) (patientId : Option String)
    (action details : String) : DBState :=
  if auditFails then db
  else
    { db with
        auditLog := db.auditLog
          ++ [{ patientId := patientId, action := action,
                details := details, success := true }] }

/-- Where, if anywhere, an exception is raised during
`store_conversation`.  `beforeConversationInsert` covers a failure in
`_encrypt_data` or in the first `INSERT`; `betweenInserts` is a failure
after the conversation `INSERT` but before/inside the triage `INSERT`;
`beforeCommit` is a failure of `conn.commit()` itself; `auditFailure`
is a failure of the audit `INSERT` after the commit succeeded. -/
inductive StoreFailure
  | noFailure
  | beforeConversationInsert
  | betweenInserts
  | beforeCommit
  | auditFailure
  deriving Repr, DecidableEq

/-- `PatientDataManager.store_conversation`.  The `try` block inserts the
conversation row, inserts the triage row, commits, then logs the audit
event (best-effort, in its own transaction) and returns `True`; any
exception before the commit reaches the `except` block, which rolls the
transaction back and returns `False`. -/
def storeConversation (db : DBState) (failure : StoreFailure)
    (patientId conversationId userMessage : String)
    (aiResponse : MergedResponse) (urgencyScore : Int)
    (sessionId : Option String) : Bool × DBState :=
  let tx0 := txBegin db
  if failure = .beforeConversationInsert then (false, txRollback tx0)
  else
    let escalationTriggered := aiResponse.escalation.required
    let convRow : ConversationRow :=
      { conversationId := conversationId
        patientId := patientId
        userMessage := userMessage
        aiResponse := aiResponse
        urgencyScore := urgencyScore
        escalationTriggered := escalationTriggered
        sessionId := sessionId }
    let tx1 := { tx0 with
                  pendingConversations := tx0.pendingConversations ++ [convRow] }
    if failure = .betweenInserts then (false, txRollback tx1)
    else
      let triageRow : TriageRow :=
        { patientId := patientId
          conversationId := conversationId
          symptomsJson := "[]"
          urgencyScore := urgencyScore
          urgencyLevel := aiResponse.urgencyLevel
          reasoning := aiResponse.urgencyReasoning
          recommendedAction := aiResponse.urgencyRecommendedAction
          escalationTriggered := escalationTriggered }
      let tx2 := { tx1 with pendingTriage := tx1.pendingTriage ++ [triageRow] }
      if failure = .beforeCommit then (false, txRollback tx2)
      else
        let committed := txCommit tx2
        let after :=
          logAuditEvent committed (failure = .auditFailure) (some patientId)
            "conversation_stored"
            ("Conversation " ++ conversationId ++ " stored")
        (true, after)

/-- A reader observes a conversation row with the given id. -/
def convVisible (db : DBState) (conversationId : String) : Bool :=
  db.conversations.any (fun r => decide (r.conversationId = conversationId))

/-- A reader observes a triage row with the given conversation id. -/
def triageVisible (db : DBState) (conversationId : String) : Bool :=
  db.triageHistory.any (fun r => decide (r.conversationId = conversationId))

/-- Number of audit rows attributed to the given patient. -/
def auditRowsFor (db : DBState) (patientId : String) : Nat :=
  (db.auditLog.filter (fun a => decide (a.patientId = some patientId))).length

/-! ## Orchestrator (`backend/app.py`, `process_patient_message`) -/

/-- Outcome of the `/api/chat/message` handler: the HTTP status, the
JSON body on success, and the database state afterwards. -/
structure ProcessResult where
  status : Nat
  response : Option MergedResponse
  db : DBState
  deriving Repr, DecidableEq

/-- `process_patient_message` in `backend/app.py`.  External inputs that
the handler merely threads through are parameters: the generated caring
text `aiText`, the fresh `conversationId`, and the knowledge agent's
lookup results.  The handler runs intake, triage, escalation, assembles
the response dict, calls `store_conversation` — discarding its Boolean
result — and returns HTTP 200 with the response.  (The security
manager's interaction log goes to the application log file, not to the
database, and is not modelled.) -/
def processPatientMessage (db : DBState) (sessionPatientId : Option String)
    (message requestHistoryText aiText conversationId : String)
    (knowledgeConditions knowledgeTreatments knowledgeWarnings : List String)
    (storeFailure : StoreFailure) : ProcessResult :=
  match sessionPatientId with
  | none => { status := 401, response := none, db := db }
  | some patientId =>
      if message = "" then { status := 400, response := none, db := db }
      else
        let intake := intakeProcessMessage aiText conversationId message requestHistoryText
        let triage := assessUrgency false intake.extractedSymptoms intake.patientContext
        let escalation :=
          checkEscalationNeeded false triage.urgencyScore
            intake.extractedSymptoms intake.patientContext
        let response : MergedResponse :=
          { agentResponse := intake.responseText
            urgencyScore := triage.urgencyScore
            urgencyLevel := triage.urgencyLevel
            urgencyReasoning := triage.reasoning
            urgencyRecommendedAction := triage.recommendedAction
            knowledgeConditions := knowledgeConditions
            knowledgeTreatments := knowledgeTreatments
            knowledgeWarningSigns := knowledgeWarnings
            escalation := escalation
            nextQuestions := intake.followUpQuestions
            conversationId := intake.conversationId }
        let stored :=
          storeConversation db storeFailure patientId response.conversationId
            message response triage.urgencyScore none
        { status := 200, response := some response, db := stored.snd }

/-! ## Helper lemmas -/

/-- Every per-symptom increment in `_calculate_base_urgency` is `0`, `1` or `3`,
hence non-negative. -/
theorem symptomScoreDelta_nonneg (s : Symptom) : 0 ≤ symptomScoreDelta s := by
  simp only [symptomScoreDelta]
  split
  · norm_num
  · split <;> norm_num

/-- The symptom loop of `_calculate_base_urgency` never decreases its
accumulator. -/
theorem foldl_delta_ge (l : List Symptom) (a : Int) :
    a ≤ l.foldl (fun acc s => acc + symptomScoreDelta s) a := by
  induction l generalizing a with
  | nil => simp
  | cons h t ih =>
      simp only [List.foldl_cons]
      exact le_trans (by have := symptomScoreDelta_nonneg h; omega) (ih (a + symptomScoreDelta h))

/-! ## C1 -/

/-- C1: for every failure mode, symptom list and patient context, the
urgency score returned by `assess_urgency` lies in `[1,10]`: the normal
path clamps the modified score with `min(10, max(1, ...))` and the
internal-error fallback returns the constant `5`. -/
theorem claim_C1_urgency_score_in_range (internalError : Bool)
    (symptoms : List Symptom) (ctx : PatientContext) :
    1 ≤ (assessUrgency internalError symptoms ctx).urgencyScore ∧
      (assessUrgency internalError symptoms ctx).urgencyScore ≤ 10 := by
  unfold assessUrgency assessUrgencyOk triageErrorFallback
  split
  · exact ⟨by norm_num, by norm_num⟩
  · simp only
    omega

/-! ## C7 -/

/-- C7: appending one observation whose (lowercased) name matches the
high-urgency keyword set never decreases the urgency score of
`assess_urgency` on its normal path: the new observation contributes
`+3` to the base score (or lifts the no-symptom base `2` to `3 + 3`),
the context modifiers are unchanged, and the `[1,10]` clamp is
monotone. -/
theorem claim_C7_high_urgency_append_monotone (symptoms : List Symptom)
    (ctx : PatientContext) (s : Symptom)
    (hs : highUrgencySymptoms.any (fun u => strHasSub (lowerStr s.name) u) = true) :
    (assessUrgency false symptoms ctx).urgencyScore ≤
      (assessUrgency false (symptoms ++ [s]) ctx).urgencyScore := by
  have hdelta : symptomScoreDelta s = 3 := by
    unfold symptomScoreDelta
    simp only [hs, if_true]
  have hbase : calculateBaseUrgency symptoms + 1 ≤ calculateBaseUrgency (symptoms ++ [s]) := by
    rcases symptoms with _ | ⟨h, t⟩
    · simp [calculateBaseUrgency, hdelta]
    · simp only [calculateBaseUrgency, List.cons_append, List.isEmpty_cons,
        Bool.false_eq_true, if_false, List.foldl_cons, List.foldl_append,
        List.foldl_nil, hdelta]
      omega
  simp only [assessUrgency, assessUrgencyOk, applyContextModifiers,
    Bool.false_eq_true, if_false]
  omega

/-- Witness for C7 at a concrete input: appending a `"chest pain"`
observation to the empty symptom list. -/
theorem claim_C7_witness :
    (highUrgencySymptoms.any
        (fun u => strHasSub (lowerStr (Symptom.mk "chest pain" "").name) u) = true) ∧
      (assessUrgency false [] ⟨none, "", none, []⟩).urgencyScore ≤
        (assessUrgency false ([] ++ [Symptom.mk "chest pain" ""]) ⟨none, "", none, []⟩).urgencyScore :=
  ⟨by decide,
   claim_C7_high_urgency_append_monotone [] ⟨none, "", none, []⟩
     (Symptom.mk "chest pain" "") (by decide)⟩

/-! ## C5 -/

/-- Counting a loop that conditionally increments equals the length of
the filtered list. -/
theorem foldl_count_eq_filter_length (l : List String) (p : String → Bool) (a : Int) :
    l.foldl (fun acc c => if p c then acc + 1 else acc) a
      = a + ((l.filter p).length : Int) := by
  induction l generalizing a with
  | nil => simp
  | cons h t ih =>
      by_cases hp : p h
      · simp [List.foldl_cons, List.filter_cons, hp, ih]
        omega
      · simp [List.foldl_cons, List.filter_cons, hp, ih]

/-- The high-risk condition keyword list as the spec's sentence gives it:
five keywords, including cancer and immunocompromised. -/
def specHighRiskConditions : List String :=
  ["diabetes", "heart disease", "hypertension", "cancer", "immunocompromised"]

/-- The context-modifier stage exactly as claim C5 words it: `+1` if
`age > 65`, `+2` if `age < 2`, `+1` per distinct high-risk keyword among
the five listed ones found in the history text, `+2` if the intake
urgency signal is `high`, and nothing else. -/
def specApplyContextModifiers (baseScore : Int) (ctx : PatientContext) : Int :=
  baseScore
    + (match ctx.age with
       | none => 0
       | some a => if a > 65 then 1 else if a < 2 then 2 else 0)
    + ((specHighRiskConditions.filter
          (fun c => strHasSub (lowerStr ctx.medicalHistoryText) c)).length : Int)
    + (if ctxUrgencyLevel ctx = some "high" then 2 else 0)

/-- C5 counterexample: for a newborn (`age = 0`) whose history reads
`"cancer"`, the claim's modifier stage adds `+2` (age below two) and
`+1` (the cancer keyword), but the code adds nothing: Python's
`if age:` treats age `0` as absent, and the code's keyword list stops at
diabetes, heart disease and hypertension. -/
theorem claim_C5_counterexample :
    applyContextModifiers 3 ⟨some 0, "cancer", none, []⟩ = 3 ∧
      specApplyContextModifiers 3 ⟨some 0, "cancer", none, []⟩ = 6 := by
  constructor <;> decide

/-- C5 amended: the context-modifier stage adds exactly `+1` if the age
is present, non-zero and above 65, `+2` if present, non-zero and below
2, `+1` for each distinct keyword among diabetes, heart disease and
hypertension (only: cancer and immunocompromised are not scored here)
found in the lowercased history text, and `+2` if the intake urgency
signal is `high`; nothing else changes the score. -/
theorem claim_C5_amended_context_modifiers (baseScore : Int) (ctx : PatientContext) :
    applyContextModifiers baseScore ctx
      = baseScore
        + (match ctx.age with
           | none => 0
           | some a => if a = 0 then 0 else if a > 65 then 1 else if a < 2 then 2 else 0)
        + ((triageHighRiskConditions.filter
              (strHasSub (lowerStr ctx.medicalHistoryText))).length : Int)
        + (if ctxUrgencyLevel ctx = some "high" then 2 else 0) := by
  simp only [applyContextModifiers, ageModifier, historyModifier,
    urgencySignalModifier, foldl_count_eq_filter_length]
  omega


/-! ## Escalation sub-check characterizations (shared by C6 and C10) -/

/-- The urgency sub-check requires escalation exactly for scores `≥ 6`. -/
theorem checkUrgencyEscalation_required (score : Int) :
    (checkUrgencyEscalation score).required = decide (6 ≤ score) := by
  unfold checkUrgencyEscalation
  by_cases h8 : score ≥ 8
  · have h6 : (6 : Int) ≤ score := by omega
    simp [h8, h6]
  · by_cases h6 : score ≥ 6
    · simp [h8, h6]
    · simp [h8, h6]

/-- The urgency sub-check's priority is `immediate` exactly for scores `≥ 8`. -/
theorem checkUrgencyEscalation_priority_immediate (score : Int) :
    ((checkUrgencyEscalation score).priority = "immediate") ↔ 8 ≤ score := by
  unfold checkUrgencyEscalation
  by_cases h8 : score ≥ 8
  · simp [h8]
  · by_cases h6 : score ≥ 6
    · simp [h8, h6]
    · simp [h8, h6]

/-- The urgency sub-check's priority is `urgent` exactly for scores in `[6,8)`. -/
theorem checkUrgencyEscalation_priority_urgent (score : Int) :
    ((checkUrgencyEscalation score).priority = "urgent") ↔ (6 ≤ score ∧ ¬ 8 ≤ score) := by
  unfold checkUrgencyEscalation
  by_cases h8 : score ≥ 8
  · simp [h8]
  · by_cases h6 : score ≥ 6
    · simp [h8, h6]
    · simp [h8, h6]

/-- A filtered list is empty exactly when no element satisfies the predicate. -/
theorem filter_isEmpty_eq_not_any {α : Type} (p : α → Bool) (l : List α) :
    (l.filter p).isEmpty = !(l.any p) := by
  induction l with
  | nil => rfl
  | cons a t ih => by_cases hp : p a <;> simp [List.filter_cons, hp, ih]

/-- `any` over names mapped from observations. -/
theorem mapped_any_eq (symptoms : List Symptom) (q : String → Bool) :
    (symptoms.map (fun s => lowerStr s.name)).any q
      = symptoms.any (fun s => q (lowerStr s.name)) := by
  induction symptoms with
  | nil => rfl
  | cons a t ih => simp only [List.map_cons, List.any_cons, ih]

/-- The symptom sub-check's `required` flag is the non-emptiness of its
matched-name list. -/
theorem checkSymptomEscalation_required_aux (symptoms : List Symptom) :
    (checkSymptomEscalation symptoms).required
      = !((symptoms.map (fun s => lowerStr s.name)).filter
            (fun n => highPrioritySymptoms.any (fun p => strHasSub n p))).isEmpty := by
  unfold checkSymptomEscalation
  by_cases he :
      ((symptoms.map (fun s => lowerStr s.name)).filter
        (fun n => highPrioritySymptoms.any (fun p => strHasSub n p))).isEmpty = true
  · simp [he]
  · simp [he]

/-- The symptom sub-check fires exactly when some observation's
lowercased name contains one of the six high-priority phrases. -/
theorem checkSymptomEscalation_required (symptoms : List Symptom) :
    (checkSymptomEscalation symptoms).required
      = symptoms.any
          (fun s => highPrioritySymptoms.any (fun p => strHasSub (lowerStr s.name) p)) := by
  rw [checkSymptomEscalation_required_aux, filter_isEmpty_eq_not_any, Bool.not_not,
    mapped_any_eq]

/-- The matched-name list of the symptom sub-check is the filtered
lowercased name list, in both branches. -/
theorem checkSymptomEscalation_symptoms_eq (symptoms : List Symptom) :
    (checkSymptomEscalation symptoms).symptoms
      = (symptoms.map (fun s => lowerStr s.name)).filter
          (fun n => highPrioritySymptoms.any (fun p => strHasSub n p)) := by
  unfold checkSymptomEscalation
  by_cases he :
      ((symptoms.map (fun s => lowerStr s.name)).filter
        (fun n => highPrioritySymptoms.any (fun p => strHasSub n p))).isEmpty = true
  · simp [he, List.isEmpty_iff.1 he]
  · simp [he]

/-- A name containing `"chest pain"` matches the high-priority list
(whose first entry is `"chest pain"` itself). -/
theorem chest_pain_matches (n : String) (h : strHasSub n "chest pain" = true) :
    highPrioritySymptoms.any (fun p => strHasSub n p) = true := by
  simp only [highPrioritySymptoms, List.any_cons, Bool.or_eq_true]
  exact Or.inl h

/-- Filtering by the high-priority match preserves which names contain
`"chest pain"`, because such names always pass the filter. -/
theorem any_chest_filter (l : List String) :
    ((l.filter (fun n => highPrioritySymptoms.any (fun p => strHasSub n p))).any
        (fun n => strHasSub n "chest pain"))
      = l.any (fun n => strHasSub n "chest pain") := by
  induction l with
  | nil => rfl
  | cons a t ih =>
      by_cases hc : strHasSub a "chest pain" = true
      · have hp := chest_pain_matches a hc
        simp [List.filter_cons, hp, List.any_cons, hc, ih]
      · by_cases hp : highPrioritySymptoms.any (fun p => strHasSub a p) = true
        · simp [List.filter_cons, hp, List.any_cons, hc, ih]
        · simp [List.filter_cons, hp, List.any_cons, hc, ih]

/-- The matched-name list of the symptom sub-check mentions
`"chest pain"` exactly when some input observation's lowercased name
contains it. -/
theorem checkSymptomEscalation_chest (symptoms : List Symptom) :
    ((checkSymptomEscalation symptoms).symptoms.any (fun n => strHasSub n "chest pain"))
      = symptoms.any (fun s => strHasSub (lowerStr s.name) "chest pain") := by
  rw [checkSymptomEscalation_symptoms_eq, any_chest_filter, mapped_any_eq]

/-- A chest-pain observation also fires the symptom sub-check. -/
theorem chest_fires_symptom_check (symptoms : List Symptom)
    (h : symptoms.any (fun s => strHasSub (lowerStr s.name) "chest pain") = true) :
    symptoms.any
        (fun s => highPrioritySymptoms.any (fun p => strHasSub (lowerStr s.name) p)) = true := by
  rcases List.any_eq_true.1 h with ⟨s, hmem, hc⟩
  exact List.any_eq_true.2 ⟨s, hmem, chest_pain_matches _ hc⟩

/-- The context sub-check fires exactly when its factor list is non-empty. -/
theorem checkContextEscalation_required (ctx : PatientContext) :
    (checkContextEscalation ctx).required = !(contextEscalationFactors ctx).isEmpty := by
  unfold checkContextEscalation
  by_cases h : (contextEscalationFactors ctx).isEmpty = true <;> simp [h]

/-! ## C6 -/

/-- C6: on its normal path, `check_escalation_needed` returns `required`
equal to the OR of the three sub-checks — urgency (score `≥ 6`), symptom
(some observation name contains a high-priority phrase), context — and
resolves `level` by first match: `emergency` when the urgency priority
is `immediate` (score `≥ 8`) or a chest-pain symptom fired; `urgent`
when the urgency priority is `urgent` (score in `[6,8)`) or the symptom
check fired; `priority` when the context check fired; else `routine`. -/
theorem claim_C6_escalation_decision (score : Int) (symptoms : List Symptom)
    (ctx : PatientContext) :
    (checkEscalationNeeded false score symptoms ctx).required
        = (decide (6 ≤ score)
           || symptoms.any
               (fun s => highPrioritySymptoms.any (fun p => strHasSub (lowerStr s.name) p))
           || (checkContextEscalation ctx).required)
    ∧ (checkEscalationNeeded false score symptoms ctx).level
        = (if 8 ≤ score
              ∨ symptoms.any (fun s => strHasSub (lowerStr s.name) "chest pain") = true
           then "emergency"
           else if (6 ≤ score ∧ ¬ 8 ≤ score)
              ∨ symptoms.any
                  (fun s => highPrioritySymptoms.any
                    (fun p => strHasSub (lowerStr s.name) p)) = true
           then "urgent"
           else if (checkContextEscalation ctx).required = true then "priority"
           else "routine") := by
  constructor
  · simp only [checkEscalationNeeded, Bool.false_eq_true, if_false,
      checkUrgencyEscalation_required, checkSymptomEscalation_required]
  · simp only [checkEscalationNeeded, Bool.false_eq_true, if_false,
      determineEscalationLevel, checkUrgencyEscalation_priority_immediate,
      checkUrgencyEscalation_priority_urgent, checkSymptomEscalation_chest,
      checkSymptomEscalation_required]

/-! ## C10 -/

/-- C10: in every result of `check_escalation_needed` — internal-error
fallback included — `required` is `true` exactly when `level` is not
`routine`. -/
theorem claim_C10_required_iff_level_not_routine (internalError : Bool) (score : Int)
    (symptoms : List Symptom) (ctx : PatientContext) :
    ((checkEscalationNeeded internalError score symptoms ctx).required = true)
      ↔ (checkEscalationNeeded internalError score symptoms ctx).level ≠ "routine" := by
  cases internalError with
  | true => simp [checkEscalationNeeded]
  | false =>
      simp only [checkEscalationNeeded, Bool.false_eq_true, if_false,
        determineEscalationLevel, checkUrgencyEscalation_required,
        checkSymptomEscalation_required, checkUrgencyEscalation_priority_immediate,
        checkUrgencyEscalation_priority_urgent, checkSymptomEscalation_chest,
        checkContextEscalation_required]
      by_cases h8 : (8 : Int) ≤ score
      · have h6 : (6 : Int) ≤ score := by omega
        simp [h8, h6]
      · by_cases hchest :
            symptoms.any (fun s => strHasSub (lowerStr s.name) "chest pain") = true
        · have hsymp := chest_fires_symptom_check symptoms hchest
          simp [h8, hchest, hsymp]
        · by_cases h6 : (6 : Int) ≤ score
          · simp [h8, hchest, h6]
          · by_cases hsymp :
                symptoms.any
                  (fun s => highPrioritySymptoms.any
                    (fun p => strHasSub (lowerStr s.name) p)) = true
            · simp [h8, hchest, h6, hsymp]
            · by_cases hctx : (contextEscalationFactors ctx).isEmpty = true
              · simp [h8, hchest, h6, hsymp, hctx]
              · simp [h8, hchest, h6, hsymp, hctx]

/-! ## C3 -/

/-- C3: for a session stored as created (`active = 1`), with any cleanup
pass having run at or before the expiry instant, verification one second
before `expires_at` succeeds; one second after `expires_at` it fails for
every stored `active` value, because `verify_session` re-checks
`expires_at > CURRENT_TIMESTAMP` at read time. -/
theorem claim_C3_session_expiry_boundary (pid token sid : String) (e tc : Nat)
    (b : Bool) (he : 1 ≤ e) (htc : tc ≤ e) :
    verifySession
        (cleanupExpiredSessions ⟨[], [], [], [⟨sid, pid, token, e, true⟩]⟩ tc)
        pid token (e - 1) = true
    ∧ verifySession ⟨[], [], [], [⟨sid, pid, token, e, b⟩]⟩ pid token (e + 1) = false := by
  constructor
  · have hlt : ¬ (e < tc) := by omega
    have hgt : e - 1 < e := by omega
    simp [cleanupExpiredSessions, verifySession, hlt, hgt]
  · have hgt : ¬ (e + 1 < e) := by omega
    simp [verifySession, gt_iff_lt, hgt]

/-- Witness for C3 at a concrete session: expiry at `100`, cleanup at
`50`, verification at `99` and at `101`. -/
theorem claim_C3_witness :
    ((1 ≤ 100 ∧ 50 ≤ 100) ∧
      (verifySession
          (cleanupExpiredSessions ⟨[], [], [], [⟨"s1", "p1", "t1", 100, true⟩]⟩ 50)
          "p1" "t1" 99 = true
        ∧ verifySession ⟨[], [], [], [⟨"s1", "p1", "t1", 100, true⟩]⟩ "p1" "t1" 101
            = false)) :=
  ⟨⟨by decide, by decide⟩,
    claim_C3_session_expiry_boundary "p1" "t1" "s1" 100 50 true (by decide) (by decide)⟩

/-! ## C2 -/

def emptyDB : DBState := ⟨[], [], [], []⟩

def sampleEscalation : EscalationResult :=
  { required := false
    level := "routine"
    reasons := none
    instructions := .items []
    estimatedWaitTime := "1-3 days"
    providerType := none }

def sampleResponse : MergedResponse :=
  { agentResponse := "ok"
    urgencyScore := 4
    urgencyLevel := "moderate"
    urgencyReasoning := "r"
    urgencyRecommendedAction := "a"
    knowledgeConditions := []
    knowledgeTreatments := []
    knowledgeWarningSigns := []
    escalation := sampleEscalation
    nextQuestions := []
    conversationId := "conv-1" }

/-- C2 counterexample: the audit event is not part of the all-or-nothing
unit.  When the audit `INSERT` fails after the commit,
`store_conversation` still reports success and both rows are visible,
yet no audit row exists — so conversation, triage row and audit event
are not written all-or-nothing as the claim states. -/
theorem claim_C2_counterexample :
    ((storeConversation emptyDB .auditFailure "p1" "conv-1" "hello" sampleResponse 4
        none).fst = true)
    ∧ convVisible
        (storeConversation emptyDB .auditFailure "p1" "conv-1" "hello" sampleResponse 4
          none).snd "conv-1" = true
    ∧ triageVisible
        (storeConversation emptyDB .auditFailure "p1" "conv-1" "hello" sampleResponse 4
          none).snd "conv-1" = true
    ∧ (storeConversation emptyDB .auditFailure "p1" "conv-1" "hello" sampleResponse 4
        none).snd.auditLog = [] := by
  refine ⟨?_, ?_, ?_, ?_⟩ <;> decide

/-- C2 amended: the conversation row and the triage row form the
all-or-nothing unit — a failure injected anywhere before the commit
(before the first insert, between the two inserts, or at the commit)
rolls the transaction back, leaving the database exactly as it was and
returning failure; on success both rows are visible.  The audit event is
appended afterwards, best-effort, outside the transaction. -/
theorem claim_C2_amended_conversation_triage_atomic (db : DBState)
    (pid cid msg : String) (resp : MergedResponse) (score : Int)
    (sid : Option String) :
    (storeConversation db .betweenInserts pid cid msg resp score sid) = (false, db)
    ∧ (storeConversation db .beforeConversationInsert pid cid msg resp score sid)
        = (false, db)
    ∧ (storeConversation db .beforeCommit pid cid msg resp score sid) = (false, db)
    ∧ ((storeConversation db .noFailure pid cid msg resp score sid).fst = true
        ∧ convVisible (storeConversation db .noFailure pid cid msg resp score sid).snd
            cid = true
        ∧ triageVisible (storeConversation db .noFailure pid cid msg resp score sid).snd
            cid = true) := by
  refine ⟨?_, ?_, ?_, ?_, ?_, ?_⟩ <;>
    simp [storeConversation, txBegin, txRollback, txCommit, logAuditEvent,
      convVisible, triageVisible, List.any_append]

/-! ## C8 -/

/-- C8 counterexample: when the audit `INSERT` itself fails, the
conversation write is visible to readers while zero audit rows exist for
the patient, so the claimed invariant does not hold unconditionally. -/
theorem claim_C8_counterexample :
    convVisible
        (storeConversation emptyDB .auditFailure "p2" "conv-2" "hi" sampleResponse 4
          none).snd "conv-2" = true
    ∧ auditRowsFor
        (storeConversation emptyDB .auditFailure "p2" "conv-2" "hi" sampleResponse 4
          none).snd "p2" = 0 := by
  refine ⟨?_, ?_⟩ <;> decide

/-- C8 amended: whenever `log_audit_event` itself succeeds, a visible
conversation write is accompanied by an audit row for that patient; and
an audit failure never fails `store_conversation` (the caller still gets
success) — but then the visible conversation has no accompanying audit
row from this operation. -/
theorem claim_C8_amended_audit_accompanies_conversation (db : DBState)
    (pid cid msg : String) (resp : MergedResponse) (score : Int)
    (sid : Option String) :
    ((storeConversation db .noFailure pid cid msg resp score sid).snd.auditLog.any
        (fun a => decide (a.patientId = some pid)) = true)
    ∧ (storeConversation db .auditFailure pid cid msg resp score sid).fst = true := by
  constructor <;>
    simp [storeConversation, txBegin, txCommit, logAuditEvent, List.any_append]

/-! ## C4 -/

/-- C4: the code discards `store_conversation`'s Boolean result.  At a
concrete failing input — a valid session for patient `p1`, the message
`"I have a headache"`, and a persistence failure injected between the
two inserts — the handler still answers HTTP 200 while no conversation
row is visible, so the persistence failure is absorbed rather than
surfaced to the caller as the specification requires. -/
theorem claim_C4_persistence_failure_not_surfaced :
    (processPatientMessage emptyDB (some "p1") "I have a headache" "" "" "conv-9"
        [] [] [] .betweenInserts).status = 200
    ∧ convVisible
        (processPatientMessage emptyDB (some "p1") "I have a headache" "" "" "conv-9"
          [] [] [] .betweenInserts).db "conv-9" = false := by
  refine ⟨?_, ?_⟩ <;> decide

/-! ## C9 -/

def c9Message : String := "I have severe chest pain and can\x27t breathe"

def c9Intake : IntakeResponse := intakeProcessMessage "" "conv-1" c9Message ""

def c9Triage : UrgencyAssessment :=
  assessUrgency false c9Intake.extractedSymptoms c9Intake.patientContext

def c9Escalation : EscalationResult :=
  checkEscalationNeeded false c9Triage.urgencyScore c9Intake.extractedSymptoms
    c9Intake.patientContext

/-- C9: on the message `"I have severe chest pain and can't breathe"`
with an empty request context, the pipeline extracts a chest-pain
symptom, reports urgency signal `high`, scores at least `8` with level
`critical`, and escalates with `required = true` at level `emergency`. -/
theorem claim_C9_severe_chest_pain_pipeline :
    (c9Intake.extractedSymptoms.map (fun s => s.name)).contains "chest pain" = true
    ∧ c9Intake.urgencyLevel = "high"
    ∧ 8 ≤ c9Triage.urgencyScore
    ∧ c9Triage.urgencyLevel = "critical"
    ∧ c9Escalation.required = true
    ∧ c9Escalation.level = "emergency" := by
  refine ⟨?_, ?_, ?_, ?_, ?_, ?_⟩ <;> decide
